import Mathlib

/-!
Verification of the image-gen-mcp orchestration core: a shallow embedding of
the provider-selection engine, configuration registry, fallback logic,
submit-then-poll loops, and the retry / rate-limit / cache utilities, with
theorems settling the specification claims.
-/

namespace ImageGenMCP

/-! ## String utilities

`hasSubstr kw hay` mirrors JavaScript `hay.includes(kw)` on exploded
character lists; `strIncludes hay kw` is the string-level wrapper used by
`analyzePrompt` (src/services/providerSelector.ts) which checks whether the
keyword occurs in the lowercased prompt. -/

def hasSubstr (kw : List Char) : List Char → Bool
  | [] => kw.isEmpty
  | c :: t => kw.isPrefixOf (c :: t) || hasSubstr kw t

/-- Function `lowerChars s` models JavaScript `s.toLowerCase()` (character list form). -/
def lowerChars (s : String) : List Char :=
  s.toList.map Char.toLower

/-- Function `strIncludes hay kw` models `hay.includes(kw)` in JavaScript, with the
haystack already exploded into characters. -/
def strIncludes (hay : List Char) (kw : String) : Bool :=
  hasSubstr kw.toList hay

/-! ## Use-case table and prompt analysis (src/services/providerSelector.ts) -/

/-- One entry of the `useCaseMapping` table: keyword list, preferred and
fallback provider lists, and a base confidence. -/
structure UseCase where
  keywords : List String
  preferredProviders : List String
  fallbackProviders : List String
  confidence : ℚ
  deriving Repr, DecidableEq

/-- The fixed category table `useCaseMapping`, in declaration order. -/
def useCaseMapping : List (String × UseCase) :=
  [ ("logo",
      { keywords := ["logo", "brand", "icon", "symbol", "emblem", "mark", "badge"]
        preferredProviders := ["IDEOGRAM", "DALLE"]
        fallbackProviders := ["LEONARDO", "STABLE"]
        confidence := 9/10 }),
    ("text-heavy",
      { keywords := ["text", "poster", "banner", "sign", "quote", "typography", "lettering", "flyer", "advertisement"]
        preferredProviders := ["IDEOGRAM"]
        fallbackProviders := ["DALLE", "GEMINI"]
        confidence := 95/100 }),
    ("photorealistic",
      { keywords := ["realistic", "photo", "photography", "real", "lifelike", "portrait", "headshot", "professional"]
        preferredProviders := ["BFL", "STABLE"]
        fallbackProviders := ["GEMINI", "DALLE"]
        confidence := 85/100 }),
    ("artistic",
      { keywords := ["art", "painting", "illustration", "creative", "abstract", "surreal", "fantasy", "imaginative"]
        preferredProviders := ["LEONARDO", "REPLICATE"]
        fallbackProviders := ["STABLE", "FAL"]
        confidence := 8/10 }),
    ("ui-design",
      { keywords := ["ui", "ux", "interface", "app", "website", "dashboard", "mockup", "wireframe", "design"]
        preferredProviders := ["DALLE", "IDEOGRAM"]
        fallbackProviders := ["STABLE", "LEONARDO"]
        confidence := 85/100 }),
    ("product",
      { keywords := ["product", "ecommerce", "catalog", "item", "merchandise", "packaging"]
        preferredProviders := ["BFL", "STABLE"]
        fallbackProviders := ["DALLE", "GEMINI"]
        confidence := 8/10 }),
    ("social-media",
      { keywords := ["instagram", "tiktok", "youtube", "thumbnail", "story", "post", "reel", "viral"]
        preferredProviders := ["LEONARDO", "IDEOGRAM"]
        fallbackProviders := ["FAL", "CLIPDROP"]
        confidence := 75/100 }),
    ("technical",
      { keywords := ["diagram", "chart", "graph", "flowchart", "architecture", "schematic", "blueprint"]
        preferredProviders := ["DALLE", "GEMINI"]
        fallbackProviders := ["IDEOGRAM", "STABLE"]
        confidence := 8/10 }),
    ("3d-render",
      { keywords := ["3d", "render", "cgi", "three dimensional", "model", "sculpture"]
        preferredProviders := ["STABLE", "BFL"]
        fallbackProviders := ["DALLE", "LEONARDO"]
        confidence := 85/100 }),
    ("anime",
      { keywords := ["anime", "manga", "kawaii", "chibi", "japanese", "otaku"]
        preferredProviders := ["LEONARDO", "STABLE"]
        fallbackProviders := ["REPLICATE", "FAL"]
        confidence := 9/10 }),
    ("carousel",
      { keywords := ["carousel", "series", "consistent", "multiple", "sequence", "slides"]
        preferredProviders := ["LEONARDO"]
        fallbackProviders := ["IDEOGRAM", "STABLE"]
        confidence := 95/100 }),
    ("quick-draft",
      { keywords := ["quick", "draft", "fast", "rapid", "speed", "instant"]
        preferredProviders := ["FAL"]
        fallbackProviders := ["DALLE", "GEMINI"]
        confidence := 9/10 }),
    ("post-process",
      { keywords := ["remove background", "transparent", "upscale", "enhance", "cleanup", "edit"]
        preferredProviders := ["CLIPDROP"]
        fallbackProviders := ["STABLE", "OPENAI"]
        confidence := 95/100 }),
    ("infographic",
      { keywords := ["infographic", "data", "visualization", "stats", "chart", "graph", "information"]
        preferredProviders := ["IDEOGRAM", "DALLE"]
        fallbackProviders := ["GEMINI", "STABLE"]
        confidence := 85/100 }),
    ("game-asset",
      { keywords := ["game", "asset", "sprite", "texture", "character design", "concept art"]
        preferredProviders := ["LEONARDO", "STABLE"]
        fallbackProviders := ["FAL", "BFL"]
        confidence := 85/100 }) ]

/-- The keyword loop of `analyzePrompt`: accumulates `(score, matchedKeywords)`
over a category's keywords, adding `keyword.length` to the score and `1` to the
match count for each keyword contained in the lowercased prompt. -/
def keywordStats (lower : List Char) (kws : List String) : ℕ × ℕ :=
  kws.foldl
    (fun acc kw => if strIncludes lower kw then (acc.1 + kw.length, acc.2 + 1) else acc)
    (0, 0)

/-- Raw score of a category against the lowercased prompt. -/
def catScore (lower : List Char) (c : UseCase) : ℕ :=
  (keywordStats lower c.keywords).1

/-- Number of the category's keywords contained in the lowercased prompt. -/
def catMatched (lower : List Char) (c : UseCase) : ℕ :=
  (keywordStats lower c.keywords).2

/-- The expression `config.confidence * (0.5 + 0.5 * matchRatio)` from `analyzePrompt`. -/
def finalConfidence (c : UseCase) (matched : ℕ) : ℚ :=
  c.confidence * (1/2 + 1/2 * ((matched : ℚ) / (c.keywords.length : ℚ)))

/-- The mutable `bestMatch` record of `analyzePrompt`. -/
structure BestMatch where
  useCase : String
  confidence : ℚ
  score : ℕ
  deriving Repr, DecidableEq

/-- One iteration of the category loop in `analyzePrompt`: if the category has
a positive match count and a strictly higher score than the current best (or
there is no best yet), it becomes the best match. -/
def analyzeStep (lower : List Char) (best : Option BestMatch) (entry : String × UseCase) :
    Option BestMatch :=
  let score := catScore lower entry.2
  let matched := catMatched lower entry.2
  if 0 < matched then
    match best with
    | none => some ⟨entry.1, finalConfidence entry.2 matched, score⟩
    | some b =>
        if b.score < score then some ⟨entry.1, finalConfidence entry.2 matched, score⟩
        else some b
  else best

/-- Function `analyzePrompt` from src/services/providerSelector.ts: lowercase the
prompt, fold the category table with `analyzeStep`, and return the best
category's name and confidence. -/
def analyzePrompt (prompt : String) : Option (String × ℚ) :=
  (useCaseMapping.foldl (analyzeStep (lowerChars prompt)) none).map
    (fun b => (b.useCase, b.confidence))

/-- The best-match record produced for a matched category entry. -/
def mkBest (lower : List Char) (e : String × UseCase) : BestMatch :=
  ⟨e.1, finalConfidence e.2 (catMatched lower e.2), catScore lower e.2⟩

lemma analyzeStep_not_matched {lower : List Char} {e : String × UseCase}
    (h : ¬ 0 < catMatched lower e.2) (acc : Option BestMatch) :
    analyzeStep lower acc e = acc := by
  simp [analyzeStep, h]

lemma analyzeStep_none_matched {lower : List Char} {e : String × UseCase}
    (h : 0 < catMatched lower e.2) :
    analyzeStep lower none e = some (mkBest lower e) := by
  simp [analyzeStep, h, mkBest]

lemma analyzeStep_some_lt {lower : List Char} {e : String × UseCase} {b : BestMatch}
    (h : 0 < catMatched lower e.2) (hlt : b.score < catScore lower e.2) :
    analyzeStep lower (some b) e = some (mkBest lower e) := by
  simp [analyzeStep, h, hlt, mkBest]

lemma analyzeStep_some_ge {lower : List Char} {e : String × UseCase} {b : BestMatch}
    (h : 0 < catMatched lower e.2) (hge : ¬ b.score < catScore lower e.2) :
    analyzeStep lower (some b) e = some b := by
  simp [analyzeStep, h, hge]

/-- Characterization of the `analyzePrompt` fold: the result is `none` exactly
when nothing matched, and otherwise it is the record of the earliest entry
attaining the strictly-maximal score among matched entries. -/
lemma analyze_foldl_spec (lower : List Char) :
    ∀ (l : List (String × UseCase)) (acc : Option BestMatch),
      (l.foldl (analyzeStep lower) acc = none →
        acc = none ∧ ∀ e ∈ l, catMatched lower e.2 = 0) ∧
      (∀ b, l.foldl (analyzeStep lower) acc = some b →
        ((acc = some b ∧ ∀ e ∈ l, 0 < catMatched lower e.2 → catScore lower e.2 ≤ b.score)
         ∨ (∃ l₁ e l₂, l = l₁ ++ e :: l₂
              ∧ 0 < catMatched lower e.2
              ∧ b = mkBest lower e
              ∧ (∀ b₀, acc = some b₀ → b₀.score < b.score)
              ∧ (∀ e' ∈ l₁, 0 < catMatched lower e'.2 → catScore lower e'.2 < b.score)
              ∧ (∀ e' ∈ l₂, 0 < catMatched lower e'.2 → catScore lower e'.2 ≤ b.score)))) := by
  intro l
  induction l with
  | nil =>
      intro acc
      constructor
      · intro h
        exact ⟨h, by simp⟩
      · intro b h
        exact Or.inl ⟨h, by simp⟩
  | cons e rest ih =>
      intro acc
      constructor
      · intro h
        rw [List.foldl_cons] at h
        by_cases hm : 0 < catMatched lower e.2
        · -- the step yields a `some`, so the fold cannot end in `none`
          cases hacc : acc with
          | none =>
              rw [hacc, analyzeStep_none_matched hm] at h
              exact absurd ((ih _).1 h).1 (by simp)
          | some b₀ =>
              by_cases hlt : b₀.score < catScore lower e.2
              · rw [hacc, analyzeStep_some_lt hm hlt] at h
                exact absurd ((ih _).1 h).1 (by simp)
              · rw [hacc, analyzeStep_some_ge hm hlt] at h
                exact absurd ((ih _).1 h).1 (by simp)
        · rw [analyzeStep_not_matched hm] at h
          obtain ⟨h1, h2⟩ := (ih acc).1 h
          refine ⟨h1, ?_⟩
          intro e' he'
          rcases List.mem_cons.mp he' with rfl | hmem
          · omega
          · exact h2 e' hmem
      · intro b h
        rw [List.foldl_cons] at h
        by_cases hm : 0 < catMatched lower e.2
        · cases hacc : acc with
          | none =>
              rw [hacc, analyzeStep_none_matched hm] at h
              rcases (ih _).2 b h with ⟨hb, hbound⟩ | ⟨l₁, e', l₂, hsplit, hm', hb, hacc', hl₁, hl₂⟩
              · -- the new entry is the final best
                refine Or.inr ⟨[], e, rest, by simp, hm, (Option.some_injective _ hb).symm, ?_, ?_, ?_⟩
                · intro b₀ hb₀; simp at hb₀
                · intro e' he'; simp at he'
                · intro e' he' hm'
                  have := hbound e' he' hm'
                  have hbe : b.score = catScore lower e.2 := by
                    have := Option.some_injective _ hb
                    rw [← this]
                    rfl
                  omega
              · -- the best comes from the tail, strictly beating the new entry
                refine Or.inr ⟨e :: l₁, e', l₂, by rw [hsplit]; simp, hm', hb, ?_, ?_, hl₂⟩
                · intro b₀ hb₀; simp at hb₀
                · intro e'' he'' hm''
                  rcases List.mem_cons.mp he'' with rfl | hmem
                  · have := hacc' (mkBest lower e'') rfl
                    simpa [mkBest] using this
                  · exact hl₁ e'' hmem hm''
          | some b₀ =>
              by_cases hlt : b₀.score < catScore lower e.2
              · rw [hacc, analyzeStep_some_lt hm hlt] at h
                rcases (ih _).2 b h with ⟨hb, hbound⟩ | ⟨l₁, e', l₂, hsplit, hm', hb, hacc', hl₁, hl₂⟩
                · refine Or.inr ⟨[], e, rest, by simp, hm, (Option.some_injective _ hb).symm, ?_, ?_, ?_⟩
                  · intro b₁ hb₁
                    have hb₁' : b₁ = b₀ := by
                      have := hb₁.symm.trans rfl
                      simpa using hb₁.symm
                    have hbe : b.score = catScore lower e.2 := by
                      have := Option.some_injective _ hb
                      rw [← this]; rfl
                    rw [hb₁']
                    omega
                  · intro e' he'; simp at he'
                  · intro e' he' hm'
                    have := hbound e' he' hm'
                    have hbe : b.score = catScore lower e.2 := by
                      have := Option.some_injective _ hb
                      rw [← this]; rfl
                    omega
                · refine Or.inr ⟨e :: l₁, e', l₂, by rw [hsplit]; simp, hm', hb, ?_, ?_, hl₂⟩
                  · intro b₁ hb₁
                    have hb₁' : b₁ = b₀ := by simpa using hb₁.symm
                    have hmk := hacc' (mkBest lower e) rfl
                    have : catScore lower e.2 < b.score := by simpa [mkBest] using hmk
                    rw [hb₁']
                    omega
                  · intro e'' he'' hm''
                    rcases List.mem_cons.mp he'' with rfl | hmem
                    · have hmk := hacc' (mkBest lower e'') rfl
                      simpa [mkBest] using hmk
                    · exact hl₁ e'' hmem hm''
              · rw [hacc, analyzeStep_some_ge hm hlt] at h
                rcases (ih _).2 b h with ⟨hb, hbound⟩ | ⟨l₁, e', l₂, hsplit, hm', hb, hacc', hl₁, hl₂⟩
                · -- the accumulator survives; the new entry does not beat it
                  refine Or.inl ⟨hb, ?_⟩
                  intro e'' he'' hm''
                  rcases List.mem_cons.mp he'' with rfl | hmem
                  · have hb₀b : b₀ = b := by simpa using hb
                    rw [← hb₀b]
                    omega
                  · exact hbound e'' hmem hm''
                · refine Or.inr ⟨e :: l₁, e', l₂, by rw [hsplit]; simp, hm', hb, ?_, ?_, hl₂⟩
                  · intro b₁ hb₁
                    have hb₁' : b₁ = b₀ := by simpa using hb₁.symm
                    rw [hb₁']
                    exact hacc' b₀ rfl
                  · intro e'' he'' hm''
                    rcases List.mem_cons.mp he'' with rfl | hmem
                    · have hlt' := hacc' b₀ rfl
                      omega
                    · exact hl₁ e'' hmem hm''
        · rw [analyzeStep_not_matched hm] at h
          rcases (ih acc).2 b h with ⟨hb, hbound⟩ | ⟨l₁, e', l₂, hsplit, hm', hb, hacc', hl₁, hl₂⟩
          · refine Or.inl ⟨hb, ?_⟩
            intro e'' he'' hm''
            rcases List.mem_cons.mp he'' with rfl | hmem
            · omega
            · exact hbound e'' hmem hm''
          · refine Or.inr ⟨e :: l₁, e', l₂, by rw [hsplit]; simp, hm', hb, hacc', ?_, hl₂⟩
            intro e'' he'' hm''
            rcases List.mem_cons.mp he'' with rfl | hmem
            · omega
            · exact hl₁ e'' hmem hm''

/-- The loop accumulator of `keywordStats` equals the sum of matched keyword
lengths paired with the matched keyword count. -/
lemma keywordStats_eq (lower : List Char) (kws : List String) :
    keywordStats lower kws =
      (((kws.filter (fun kw => strIncludes lower kw)).map String.length).sum,
        (kws.filter (fun kw => strIncludes lower kw)).length) := by
  have main : ∀ (ks : List String) (a : ℕ × ℕ),
      ks.foldl (fun acc kw =>
        if strIncludes lower kw then (acc.1 + kw.length, acc.2 + 1) else acc) a =
      (a.1 + ((ks.filter (fun kw => strIncludes lower kw)).map String.length).sum,
        a.2 + (ks.filter (fun kw => strIncludes lower kw)).length) := by
    intro ks
    induction ks with
    | nil => intro a; simp
    | cons k rest ih =>
        intro a
        by_cases hk : strIncludes lower k
        · simp only [List.foldl_cons, hk, if_pos, List.filter_cons_of_pos, List.map_cons,
            List.sum_cons, List.length_cons, ih]
          refine Prod.ext ?_ ?_ <;> simp <;> omega
        · simp only [List.foldl_cons, hk, if_neg, List.filter_cons_of_neg, ih,
            Bool.false_eq_true, not_false_iff]
  simpa [keywordStats] using main kws (0, 0)

/-- C1: for every prompt, the automatic selection's per-category score is the
sum of the lengths of the category's keywords occurring in the lowercased
prompt, the returned confidence is the category's base confidence times
`0.5 + 0.5 * matchedCount / totalKeywords`, and the returned category is one
with the highest raw score among matched categories, ties broken in favour of
the category declared earlier in the table. -/
theorem C1_auto_selection_argmax (p : String) (uc : String) (conf : ℚ)
    (h : analyzePrompt p = some (uc, conf)) :
    ∃ l₁ e l₂, useCaseMapping = l₁ ++ e :: l₂
      ∧ uc = e.1
      ∧ 0 < catMatched (lowerChars p) e.2
      ∧ catScore (lowerChars p) e.2
          = ((e.2.keywords.filter (fun kw => strIncludes (lowerChars p) kw)).map
              String.length).sum
      ∧ catMatched (lowerChars p) e.2
          = (e.2.keywords.filter (fun kw => strIncludes (lowerChars p) kw)).length
      ∧ conf = e.2.confidence
          * (1/2 + 1/2 * ((catMatched (lowerChars p) e.2 : ℚ) / (e.2.keywords.length : ℚ)))
      ∧ (∀ e' ∈ useCaseMapping, 0 < catMatched (lowerChars p) e'.2 →
          catScore (lowerChars p) e'.2 ≤ catScore (lowerChars p) e.2)
      ∧ (∀ e' ∈ l₁, 0 < catMatched (lowerChars p) e'.2 →
          catScore (lowerChars p) e'.2 < catScore (lowerChars p) e.2) := by
  unfold analyzePrompt at h
  rw [Option.map_eq_some'] at h
  obtain ⟨b, hfold, hpair⟩ := h
  have huc : b.useCase = uc := by
    have := congrArg Prod.fst hpair
    simpa using this
  have hconf : b.confidence = conf := by
    have := congrArg Prod.snd hpair
    simpa using this
  rcases (analyze_foldl_spec (lowerChars p) useCaseMapping none).2 b hfold with
    ⟨habs, _⟩ | ⟨l₁, e, l₂, hsplit, hm, hb, _, hl₁, hl₂⟩
  · exact absurd habs (by simp)
  · refine ⟨l₁, e, l₂, hsplit, ?_, hm, ?_, ?_, ?_, ?_, ?_⟩
    · rw [← huc, hb]; rfl
    · simp [catScore, keywordStats_eq]
    · simp [catMatched, keywordStats_eq]
    · rw [← hconf, hb]
      simp [mkBest, finalConfidence]
    · intro e' he' hm'
      have hbscore : b.score = catScore (lowerChars p) e.2 := by rw [hb]; rfl
      rw [hsplit] at he'
      rcases List.mem_append.mp he' with hmem | hmem
      · have := hl₁ e' hmem hm'
        omega
      · rcases List.mem_cons.mp hmem with rfl | hmem'
        · omega
        · have := hl₂ e' hmem' hm'
          omega
    · intro e' he' hm'
      have hbscore : b.score = catScore (lowerChars p) e.2 := by rw [hb]; rfl
      have := hl₁ e' he' hm'
      omega

/-- The first entry of the category table (the `logo` category). -/
def logoEntry : String × UseCase :=
  useCaseMapping.headD ("", ⟨[], [], [], 0⟩)

/-- Witness for C1: the prompt `"logo"` matches the `logo` category. -/
theorem C1_auto_selection_argmax_witness :
    ∃ l₁ e l₂, useCaseMapping = l₁ ++ e :: l₂
      ∧ "logo" = e.1
      ∧ 0 < catMatched (lowerChars "logo") e.2
      ∧ catScore (lowerChars "logo") e.2
          = ((e.2.keywords.filter (fun kw => strIncludes (lowerChars "logo") kw)).map
              String.length).sum
      ∧ catMatched (lowerChars "logo") e.2
          = (e.2.keywords.filter (fun kw => strIncludes (lowerChars "logo") kw)).length
      ∧ finalConfidence logoEntry.2 (catMatched (lowerChars "logo") logoEntry.2)
          = e.2.confidence
            * (1/2 + 1/2 * ((catMatched (lowerChars "logo") e.2 : ℚ) / (e.2.keywords.length : ℚ)))
      ∧ (∀ e' ∈ useCaseMapping, 0 < catMatched (lowerChars "logo") e'.2 →
          catScore (lowerChars "logo") e'.2 ≤ catScore (lowerChars "logo") e.2)
      ∧ (∀ e' ∈ l₁, 0 < catMatched (lowerChars "logo") e'.2 →
          catScore (lowerChars "logo") e'.2 < catScore (lowerChars "logo") e.2) :=
  C1_auto_selection_argmax "logo" "logo"
    (finalConfidence logoEntry.2 (catMatched (lowerChars "logo") logoEntry.2)) rfl

/-! ## Provider selection (src/services/providerSelector.ts, `selectProvider`) -/

/-- The general-heuristics tail of `selectProvider`: quality keywords pick the
first available of `[BFL, STABLE, DALLE]`, speed keywords the first available
of `[FAL, DALLE, GEMINI]`, and otherwise the first available provider
(`availableProviders[0]`, `none` when the list is empty). -/
def generalHeuristics (prompt : String) (avail : List String) : Option String :=
  let lower := lowerChars prompt
  match (if strIncludes lower "high quality" || strIncludes lower "professional"
            || strIncludes lower "4k"
         then ["BFL", "STABLE", "DALLE"].find? (fun p => avail.contains p)
         else none) with
  | some p => some p
  | none =>
      match (if strIncludes lower "quick" || strIncludes lower "fast"
                || strIncludes lower "draft"
             then ["FAL", "DALLE", "GEMINI"].find? (fun p => avail.contains p)
             else none) with
      | some p => some p
      | none => avail.head?

/-- The category branch of `selectProvider`: first available preferred
provider, then first available fallback provider, then general heuristics. -/
def categorySelect (cfg : UseCase) (avail : List String) (prompt : String) : Option String :=
  match cfg.preferredProviders.find? (fun p => avail.contains p) with
  | some p => some p
  | none =>
      match cfg.fallbackProviders.find? (fun p => avail.contains p) with
      | some p => some p
      | none => generalHeuristics prompt avail

/-- The auto branch of `selectProvider`: analyze the prompt and, when a use
case is detected, select through its category entry. -/
def autoSelect (prompt : String) (avail : List String) : Option String :=
  match analyzePrompt prompt with
  | some (ucName, _) =>
      match useCaseMapping.find? (fun x => x.1 = ucName) with
      | some (_, cfg) => categorySelect cfg avail prompt
      | none => generalHeuristics prompt avail
  | none => generalHeuristics prompt avail

/-- Function `selectProvider` from src/services/providerSelector.ts. It returns a
single provider name (`none` models the `undefined` result on an empty
available list): an explicitly requested available provider wins, otherwise
the auto-selection runs. -/
def selectProvider (prompt : String) (availableProviders : List String)
    (explicitProvider : Option String) : Option String :=
  match explicitProvider with
  | some e =>
      if e != "" && e != "auto" then
        if availableProviders.contains e then some e
        else autoSelect prompt availableProviders
      else autoSelect prompt availableProviders
  | none => autoSelect prompt availableProviders

/-- C2 counterexample: with available backends `{IDEOGRAM, DALLE, LEONARDO}`
and the prompt `"logo"` (category `logo`, preferred list `[IDEOGRAM, DALLE]`),
the Selection Engine returns the single name `IDEOGRAM`; its output is not an
ordered candidate list beginning with `IDEOGRAM` then `DALLE`, since `DALLE`
is absent from the output entirely. -/
theorem C2_counterexample_single_not_list :
    (selectProvider "logo" ["IDEOGRAM", "DALLE", "LEONARDO"] none).toList = ["IDEOGRAM"]
    ∧ "DALLE" ∉ (selectProvider "logo" ["IDEOGRAM", "DALLE", "LEONARDO"] none).toList := by
  decide

/-- C2 (amended): the Selection Engine returns exactly one provider name, the
head of the claimed candidate order: whenever `IDEOGRAM` (head of the `logo`
category's preferred list) is available, `selectProvider` on a `logo` prompt
returns `IDEOGRAM` alone. -/
theorem C2_selection_returns_single_head (avail : List String)
    (h : "IDEOGRAM" ∈ avail) :
    selectProvider "logo" avail none = some "IDEOGRAM" := by
  have hc : avail.contains "IDEOGRAM" = true := by simpa using h
  have hfind : (["IDEOGRAM", "DALLE"].find? (fun p => avail.contains p))
      = some "IDEOGRAM" := List.find?_cons_of_pos _ hc
  have hauto : selectProvider "logo" avail none = categorySelect logoEntry.2 avail "logo" := rfl
  rw [hauto]
  unfold categorySelect
  rw [show logoEntry.2.preferredProviders = ["IDEOGRAM", "DALLE"] from rfl, hfind]

/-- Witness for C2's amended theorem at the concrete scenario list. -/
theorem C2_selection_returns_single_head_witness :
    selectProvider "logo" ["IDEOGRAM", "DALLE", "LEONARDO"] none = some "IDEOGRAM" :=
  C2_selection_returns_single_head ["IDEOGRAM", "DALLE", "LEONARDO"] (by decide)

/-! ## Configuration and provider registry (src/config.ts) -/

/-- The `ProviderName` union type from src/types.ts. -/
inductive ProviderName where
  | MOCK | OPENAI | STABILITY | REPLICATE | GEMINI
  | IDEOGRAM | BFL | LEONARDO | FAL | CLIPDROP
  deriving Repr, DecidableEq

/-- String form of a provider name. -/
def nameStr : ProviderName → String
  | .MOCK => "MOCK"
  | .OPENAI => "OPENAI"
  | .STABILITY => "STABILITY"
  | .REPLICATE => "REPLICATE"
  | .GEMINI => "GEMINI"
  | .IDEOGRAM => "IDEOGRAM"
  | .BFL => "BFL"
  | .LEONARDO => "LEONARDO"
  | .FAL => "FAL"
  | .CLIPDROP => "CLIPDROP"

/-- Models `s.toUpperCase()` (character map form). -/
def toUpperStr (s : String) : String :=
  String.mk (s.toList.map Char.toUpper)

/-- Models `name.toUpperCase() as ProviderName` followed by the constructor switch of
`Config.createProvider`: unknown names yield `none` (the switch falls through
and `undefined` is returned). -/
def parseProviderName (s : String) : Option ProviderName :=
  let u := toUpperStr s
  if u = "MOCK" then some .MOCK
  else if u = "OPENAI" then some .OPENAI
  else if u = "STABILITY" then some .STABILITY
  else if u = "REPLICATE" then some .REPLICATE
  else if u = "GEMINI" then some .GEMINI
  else if u = "IDEOGRAM" then some .IDEOGRAM
  else if u = "BFL" then some .BFL
  else if u = "LEONARDO" then some .LEONARDO
  else if u = "FAL" then some .FAL
  else if u = "CLIPDROP" then some .CLIPDROP
  else none

/-- The process environment as the providers see it: the `DEFAULT_PROVIDER`
and `DISABLE_FALLBACK` variables plus presence of each credential variable. -/
structure Env where
  defaultProviderVar : Option String
  disableFallbackVar : Option String
  hasKey : String → Bool

/-- Models `process.env.DISABLE_FALLBACK === 'true'`. -/
def fallbackDisabled (env : Env) : Bool :=
  env.disableFallbackVar == some "true"

/-- Each provider's `isConfigured()`: `MOCK` is always configured; every other
provider checks that its credential variable is present, per its constructor
in src/providers. Modelled from the spec: the LEONARDO provider file is
absent from src, so its clause follows the spec's rule that configuration
status is derived from credential presence (`LEONARDO_API_KEY` per the
README). -/
def isConfigured (env : Env) : ProviderName → Bool
  | .MOCK => true
  | .OPENAI => env.hasKey "OPENAI_API_KEY"
  | .STABILITY => env.hasKey "STABILITY_API_KEY"
  | .REPLICATE => env.hasKey "REPLICATE_API_TOKEN"
  | .GEMINI => env.hasKey "GEMINI_API_KEY"
  | .IDEOGRAM => env.hasKey "IDEOGRAM_API_KEY"
  | .BFL => env.hasKey "BFL_API_KEY"
  | .LEONARDO => env.hasKey "LEONARDO_API_KEY"
  | .FAL => env.hasKey "FAL_API_KEY"
  | .CLIPDROP => env.hasKey "CLIPDROP_API_KEY"

/-- The `allNames` list used across `Config`, in source order. -/
def allProviderNames : List ProviderName :=
  [.MOCK, .OPENAI, .STABILITY, .REPLICATE, .GEMINI, .IDEOGRAM, .BFL, .LEONARDO, .FAL, .CLIPDROP]

/-- Models `Config.getConfiguredProviders()`. -/
def getConfiguredProviders (env : Env) : List ProviderName :=
  allProviderNames.filter (isConfigured env)

/-- The `ProviderError` class from src/types.ts (message, provider tag, and
the `isRetryable` flag). -/
structure PError where
  message : String
  provider : String
  retryable : Bool
  deriving Repr, DecidableEq

/-- The static fallback chain of `Config.getDefaultProvider`. -/
def fallbackChain : List ProviderName :=
  [.IDEOGRAM, .BFL, .LEONARDO, .FAL, .OPENAI, .STABILITY, .REPLICATE, .GEMINI, .MOCK]

/-- The chain loop of `Config.getDefaultProvider`: first configured provider
in the list. -/
def firstConfigured (env : Env) : List ProviderName → Option ProviderName
  | [] => none
  | n :: rest => if isConfigured env n then some n else firstConfigured env rest

/-- Function `Config.getDefaultProvider` from src/config.ts: env-var default if
configured; errors only when `DISABLE_FALLBACK` is `'true'`; otherwise the
static fallback chain, with `MOCK` as the final resort. -/
def getDefaultProvider (env : Env) : Except PError ProviderName :=
  let fromEnvVar : Option (Except PError ProviderName) :=
    match env.defaultProviderVar with
    | some d =>
        match parseProviderName d with
        | some n =>
            if isConfigured env n then some (.ok n)
            else if fallbackDisabled env then
              some (.error ⟨s!"Default provider {d} not configured and fallback is disabled", d, false⟩)
            else none
        | none =>
            if fallbackDisabled env then
              some (.error ⟨s!"Default provider {d} not configured and fallback is disabled", d, false⟩)
            else none
    | none => none
  match fromEnvVar with
  | some r => r
  | none =>
      if fallbackDisabled env then
        .error ⟨"No default provider configured and fallback is disabled", "NONE", false⟩
      else
        match firstConfigured env fallbackChain with
        | some n => .ok n
        | none => .ok .MOCK

lemma firstConfigured_sound (env : Env) :
    ∀ l n, firstConfigured env l = some n → isConfigured env n = true := by
  intro l
  induction l with
  | nil => intro n h; simp [firstConfigured] at h
  | cons m rest ih =>
      intro n h
      by_cases hm : isConfigured env m
      · simp [firstConfigured, hm] at h
        rw [← h]; exact hm
      · simp [firstConfigured, hm] at h
        exact ih n h

lemma firstConfigured_isSome_of_mem (env : Env) :
    ∀ l, (∃ n ∈ l, isConfigured env n = true) → (firstConfigured env l).isSome = true := by
  intro l
  induction l with
  | nil => rintro ⟨n, hn, _⟩; simp at hn
  | cons m rest ih =>
      rintro ⟨n, hn, hc⟩
      by_cases hm : isConfigured env m
      · simp [firstConfigured, hm]
      · simp [firstConfigured, hm]
        rcases List.mem_cons.mp hn with rfl | hmem
        · exact absurd hc (by simpa using hm)
        · exact ih ⟨n, hmem, hc⟩

/-- C10: whenever fallback is not disabled, `getDefaultProvider` returns a
configured provider and never raises; the `MOCK` provider is unconditionally
configured and terminates the static fallback chain, so the error branches
are unreachable under that precondition. -/
theorem C10_default_provider_never_raises (env : Env)
    (h : fallbackDisabled env = false) :
    (∃ p, getDefaultProvider env = .ok p ∧ isConfigured env p = true)
    ∧ (firstConfigured env fallbackChain).isSome = true := by
  have hchain : (firstConfigured env fallbackChain).isSome = true :=
    firstConfigured_isSome_of_mem env fallbackChain
      ⟨.MOCK, by simp [fallbackChain], rfl⟩
  refine ⟨?_, hchain⟩
  obtain ⟨m, hm⟩ := Option.isSome_iff_exists.mp hchain
  have hmc : isConfigured env m = true := firstConfigured_sound env fallbackChain m hm
  unfold getDefaultProvider
  cases hd : env.defaultProviderVar with
  | none =>
      simp only [hd, h, Bool.false_eq_true, if_false, hm]
      exact ⟨m, rfl, hmc⟩
  | some d =>
      cases hp : parseProviderName d with
      | none =>
          simp only [hd, hp, h, Bool.false_eq_true, if_false, hm]
          exact ⟨m, rfl, hmc⟩
      | some n =>
          by_cases hc : isConfigured env n
          · simp only [hd, hp, hc, if_true]
            exact ⟨n, rfl, hc⟩
          · simp only [hd, hp, hc, h, Bool.false_eq_true, if_false, hm]
            exact ⟨m, rfl, hmc⟩

/-- Witness for C10 in the empty environment: the chain resolves to `MOCK`. -/
theorem C10_default_provider_never_raises_witness :
    (∃ p, getDefaultProvider ⟨none, none, fun _ => false⟩ = .ok p
      ∧ isConfigured ⟨none, none, fun _ => false⟩ p = true)
    ∧ (firstConfigured ⟨none, none, fun _ => false⟩ fallbackChain).isSome = true :=
  C10_default_provider_never_raises ⟨none, none, fun _ => false⟩ rfl

/-! ## Registry memoization (src/config.ts, `Config.providers`)

Instance identity is tracked by a construction counter: `createProvider`
returns the memoized id when the name is in the map and otherwise allocates a
fresh id, exactly mirroring the `Map` check-then-set in the source. -/

/-- The `Config.providers` static map plus a construction counter modelling
object identity. -/
structure Registry where
  nextId : ℕ
  entries : List (ProviderName × ℕ)
  deriving Repr, DecidableEq

/-- Id of the memoized instance for a name, if constructed. -/
def lookupId (st : Registry) (n : ProviderName) : Option ℕ :=
  (st.entries.find? (fun e => e.1 = n)).map (fun e => e.2)

/-- Models `Config.createProvider`: return the existing instance if present,
otherwise construct one and store it. -/
def createProvider (st : Registry) (n : ProviderName) : ℕ × Registry :=
  match st.entries.find? (fun e => e.1 = n) with
  | some e => (e.2, st)
  | none => (st.nextId, ⟨st.nextId + 1, (n, st.nextId) :: st.entries⟩)

/-- Models `Config.getProvider`: uppercase the name, then `createProvider`; unknown
names return `none` and leave the registry untouched. -/
def getProviderReg (st : Registry) (name : String) : Option ℕ × Registry :=
  match parseProviderName name with
  | none => (none, st)
  | some n =>
      let r := createProvider st n
      (some r.1, r.2)

lemma createProvider_lookup (st : Registry) (n : ProviderName) :
    lookupId (createProvider st n).2 n = some (createProvider st n).1 := by
  unfold createProvider lookupId
  cases hf : st.entries.find? (fun e => e.1 = n) with
  | none => simp [List.find?]
  | some e =>
      have := List.find?_some hf
      simp [lookupId, hf]

lemma createProvider_preserves (st : Registry) (m n : ProviderName) (id : ℕ)
    (h : lookupId st n = some id) :
    lookupId (createProvider st m).2 n = some id := by
  unfold createProvider
  cases hf : st.entries.find? (fun e => e.1 = m) with
  | some e => simpa using h
  | none =>
      by_cases hnm : n = m
      · subst hnm
        unfold lookupId at h
        simp [hf] at h
      · unfold lookupId at h ⊢
        simp only [List.find?]
        have : (decide ((n, st.nextId).1 = n) : Bool) = true := by simp
        have hne : (decide ((m, st.nextId).1 = n) : Bool) = false := by
          simp [Ne.symm hnm]
        simp [hne, h]

lemma createProvider_idem (st : Registry) (n : ProviderName) :
    createProvider (createProvider st n).2 n = createProvider st n := by
  unfold createProvider
  cases hf : st.entries.find? (fun e => e.1 = n) with
  | some e => simp [hf]
  | none => simp [List.find?]

/-- C9: the registry constructs at most one instance per name: a repeated
`getProvider` returns the identical memoized id and leaves the registry
unchanged, an unknown name returns `none` without touching the registry, and
an id stored for a name survives any later `getProvider` call unchanged. -/
theorem C9_registry_memoization (st : Registry) (name q : String)
    (n : ProviderName) (id : ℕ) :
    (getProviderReg (getProviderReg st name).2 name = getProviderReg st name)
    ∧ (parseProviderName name = none → getProviderReg st name = (none, st))
    ∧ (lookupId st n = some id → lookupId (getProviderReg st q).2 n = some id) := by
  refine ⟨?_, ?_, ?_⟩
  · unfold getProviderReg
    cases hp : parseProviderName name with
    | none => simp
    | some m => simp [createProvider_idem]
  · intro hp
    unfold getProviderReg
    simp [hp]
  · intro h
    unfold getProviderReg
    cases hp : parseProviderName q with
    | none => simpa using h
    | some m => simpa using createProvider_preserves st m n id h

/-- Witness for C9: constructing `MOCK` twice from the empty registry yields
the same instance id, an unknown name is rejected, and a stored id survives a
later construction of a different provider. -/
theorem C9_registry_memoization_witness :
    (getProviderReg (getProviderReg ⟨0, []⟩ "mock").2 "mock"
        = getProviderReg (⟨0, []⟩ : Registry) "mock")
    ∧ (getProviderReg ⟨0, []⟩ "NOT_A_PROVIDER" = (none, (⟨0, []⟩ : Registry)))
    ∧ (lookupId (getProviderReg ⟨1, [(ProviderName.MOCK, 0)]⟩ "openai").2
        ProviderName.MOCK = some 0) :=
  ⟨(C9_registry_memoization ⟨0, []⟩ "mock" "q" ProviderName.MOCK 0).1,
    (C9_registry_memoization ⟨0, []⟩ "NOT_A_PROVIDER" "q" ProviderName.MOCK 0).2.1
      (by decide),
    (C9_registry_memoization ⟨1, [(ProviderName.MOCK, 0)]⟩ "x" "openai"
      ProviderName.MOCK 0).2.2 (by decide)⟩

/-! ## Orchestrator fallback branch (src/index.ts, `image.generate` handler) -/

/-- A failure thrown by a provider call: either a `ProviderError` or any
other thrown error. -/
inductive GenFailure where
  | perr (e : PError)
  | generic (msg : String)
  deriving Repr, DecidableEq

/-- The catch branch of the `image.generate` handler: on a retryable
`ProviderError` with fallback not disabled, resolve `Config.getDefaultProvider`
and, when it differs from the failed provider, make exactly one call to it;
in every other case rethrow. The second component lists the fallback
providers actually called. -/
def generateWithFallback {α : Type} (env : Env) (headName : ProviderName)
    (headOutcome : Except GenFailure α)
    (fallbackOutcome : ProviderName → Except GenFailure α) :
    Except GenFailure α × List ProviderName :=
  match headOutcome with
  | .ok r => (.ok r, [])
  | .error f =>
      match f with
      | .perr e =>
          if e.retryable && !(fallbackDisabled env) then
            match getDefaultProvider env with
            | .ok fb =>
                if fb ≠ headName then (fallbackOutcome fb, [fb])
                else (.error f, [])
            | .error e' => (.error (.perr e'), [])
          else (.error f, [])
      | .generic _ => (.error f, [])

/-- Environment of the C3 counterexample: `DEFAULT_PROVIDER=IDEOGRAM`,
fallback enabled, only the Ideogram credential present. -/
def envIdeogramOnly : Env :=
  ⟨some "IDEOGRAM", none, fun k => k == "IDEOGRAM_API_KEY"⟩

/-- C3 counterexample: with `DEFAULT_PROVIDER=IDEOGRAM` configured and
fallback enabled, a retryable failure of the explicitly chosen `IDEOGRAM`
resolves the default provider to `IDEOGRAM` itself, so zero fallback calls
are made (not exactly one) and the original error is rethrown, even though a
fallback call would have succeeded. -/
theorem C3_counterexample_no_second_call :
    generateWithFallback envIdeogramOnly ProviderName.IDEOGRAM
        (.error (.perr ⟨"server error", "IDEOGRAM", true⟩))
        (fun _ => .ok ())
      = (.error (.perr ⟨"server error", "IDEOGRAM", true⟩), []) := by
  rfl

/-- C3 (amended): on a retryable `ProviderError` with fallback enabled,
exactly one call is made to the default provider, provided the default
provider differs from the failed one; when it coincides, the error is
rethrown with no further call; with fallback disabled the handler fails
immediately with zero calls to any other backend. -/
theorem C3_fallback_single_call {α : Type} (env : Env) (head : ProviderName)
    (e : PError) (fbOut : ProviderName → Except GenFailure α) :
    (∀ fb, e.retryable = true → fallbackDisabled env = false →
        getDefaultProvider env = .ok fb → fb ≠ head →
        generateWithFallback env head (.error (.perr e)) fbOut = (fbOut fb, [fb]))
    ∧ (fallbackDisabled env = true →
        ∀ f : GenFailure,
          generateWithFallback env head (.error f) fbOut = (.error f, []))
    ∧ (∀ fb, e.retryable = true → fallbackDisabled env = false →
        getDefaultProvider env = .ok fb → fb = head →
        generateWithFallback env head (.error (.perr e)) fbOut
          = (.error (.perr e), [])) := by
  refine ⟨?_, ?_, ?_⟩
  · intro fb hr hd hdef hne
    simp [generateWithFallback, hr, hd, hdef, hne]
  · intro hd f
    cases f with
    | perr e' =>
        simp [generateWithFallback, hd]
    | generic m =>
        simp [generateWithFallback]
  · intro fb hr hd hdef heq
    simp [generateWithFallback, hr, hd, hdef, heq]

/-- Witness for C3's amended theorem: in the empty environment the default
resolves to `MOCK`, so a retryable failure of `BFL` triggers exactly one
fallback call to `MOCK`; with `DISABLE_FALLBACK=true` no call is made. -/
theorem C3_fallback_single_call_witness :
    (generateWithFallback ⟨none, none, fun _ => false⟩ ProviderName.BFL
        (.error (.perr ⟨"boom", "BFL", true⟩)) (fun _ => .ok ())
      = (.ok (), [ProviderName.MOCK]))
    ∧ (generateWithFallback ⟨none, some "true", fun _ => false⟩ ProviderName.BFL
        (.error (.perr ⟨"boom", "BFL", true⟩)) (fun _ => (.ok () : Except GenFailure Unit))
      = (.error (.perr ⟨"boom", "BFL", true⟩), [])) :=
  ⟨(C3_fallback_single_call ⟨none, none, fun _ => false⟩ ProviderName.BFL
      ⟨"boom", "BFL", true⟩ (fun _ => .ok ())).1 ProviderName.MOCK rfl rfl rfl
      (by decide),
    (C3_fallback_single_call ⟨none, some "true", fun _ => false⟩ ProviderName.BFL
      ⟨"boom", "BFL", true⟩ (fun _ => .ok ())).2.1 rfl
      (.perr ⟨"boom", "BFL", true⟩)⟩

/-! ## Submit-then-poll loops (src/providers/bfl.ts and src/providers/fal.ts,
`pollForResult`) -/

/-- Terminal outcome of a poll loop, recording how many status checks were
made and whether a raised error is retryable. -/
inductive PollOutcome where
  | ready (checks : ℕ)
  | backendFailed (retryable : Bool) (checks : ℕ)
  | httpError (retryable : Bool) (checks : ℕ)
  | timedOut (retryable : Bool)
  deriving Repr, DecidableEq

/-- The BFL poll loop body over a stream of `(statusCode, status)` responses:
return on `200`/`Ready`, raise a non-retryable error on `Failed`, and keep
polling otherwise; the exhausted budget raises a retryable timeout. -/
def bflPollAux (resp : ℕ → ℕ × String) : ℕ → ℕ → PollOutcome
  | _, 0 => .timedOut true
  | i, r + 1 =>
      if (resp i).1 = 200 ∧ (resp i).2 = "Ready" then .ready (i + 1)
      else if (resp i).2 = "Failed" then .backendFailed false (i + 1)
      else bflPollAux resp (i + 1) r

/-- Models `BFLProvider.pollForResult` with its `maxAttempts = 30` budget. -/
def bflPoll (resp : ℕ → ℕ × String) : PollOutcome :=
  bflPollAux resp 0 30

/-- One status response of the Fal queue API: HTTP success flag, `status`
string, and presence of `images` in the payload. -/
structure FalResp where
  ok : Bool
  status : String
  hasImages : Bool
  deriving Repr, DecidableEq

/-- The Fal poll loop body: a failed status request raises a retryable error,
`COMPLETED` with images returns, `FAILED` raises a retryable error, anything
else keeps polling; the exhausted budget raises a retryable timeout. -/
def falPollAux (resp : ℕ → FalResp) : ℕ → ℕ → PollOutcome
  | _, 0 => .timedOut true
  | i, r + 1 =>
      if (resp i).ok = false then .httpError true (i + 1)
      else if (resp i).status = "COMPLETED" ∧ (resp i).hasImages then .ready (i + 1)
      else if (resp i).status = "FAILED" then .backendFailed true (i + 1)
      else falPollAux resp (i + 1) r

/-- Models `FalProvider.pollForResult` with its `maxAttempts = 30` budget. -/
def falPoll (resp : ℕ → FalResp) : PollOutcome :=
  falPollAux resp 0 30

/-- C4 counterexample: a Fal status sequence that reports `FAILED` at the
first check (with no transient-failure signal from the backend) raises a
backend error marked retryable, not the non-retryable error the claim
requires. -/
theorem C4_counterexample_fal_failed_is_retryable :
    falPoll (fun _ => ⟨true, "FAILED", false⟩) = .backendFailed true 1
    ∧ falPoll (fun _ => ⟨true, "FAILED", false⟩) ≠ .backendFailed false 1 := by
  refine ⟨rfl, ?_⟩
  intro h
  rw [show falPoll (fun _ => ⟨true, "FAILED", false⟩) = .backendFailed true 1 from rfl] at h
  simp at h

lemma bflPollAux_timeout (resp : ℕ → ℕ × String) :
    ∀ r i, (∀ j, i ≤ j → j < i + r →
        ¬((resp j).1 = 200 ∧ (resp j).2 = "Ready") ∧ (resp j).2 ≠ "Failed") →
      bflPollAux resp i r = .timedOut true := by
  intro r
  induction r with
  | zero => intro i _; rfl
  | succ r ih =>
      intro i h
      obtain ⟨h1, h2⟩ := h i (le_refl i) (by omega)
      rw [bflPollAux, if_neg h1, if_neg h2]
      exact ih (i + 1) (fun j hj1 hj2 => h j (by omega) (by omega))

lemma falPollAux_timeout (resp : ℕ → FalResp) :
    ∀ r i, (∀ j, i ≤ j → j < i + r →
        (resp j).ok = true ∧ ¬((resp j).status = "COMPLETED" ∧ (resp j).hasImages)
        ∧ (resp j).status ≠ "FAILED") →
      falPollAux resp i r = .timedOut true := by
  intro r
  induction r with
  | zero => intro i _; rfl
  | succ r ih =>
      intro i h
      obtain ⟨h1, h2, h3⟩ := h i (le_refl i) (by omega)
      rw [falPollAux, if_neg (by simp [h1]), if_neg h2, if_neg h3]
      exact ih (i + 1) (fun j hj1 hj2 => h j (by omega) (by omega))

/-- C4 (amended): for both poll loops, a `[Pending, Pending, Ready]` status
sequence returns the ready result after exactly 3 status checks, and a
sequence that never reaches a terminal state within the 30-attempt budget
raises a retryable timeout error; a sequence reaching `Failed` raises a
backend error at that check without further polling, but its retryability is
provider-specific: BFL marks it non-retryable while Fal marks it retryable
even without a transient-failure signal. -/
theorem C4_polling_terminal_states (bresp : ℕ → ℕ × String) (fresp : ℕ → FalResp) :
    (bresp 0 = (200, "Pending") → bresp 1 = (200, "Pending") → bresp 2 = (200, "Ready") →
      bflPoll bresp = .ready 3)
    ∧ (fresp 0 = ⟨true, "IN_PROGRESS", false⟩ → fresp 1 = ⟨true, "IN_PROGRESS", false⟩ →
        fresp 2 = ⟨true, "COMPLETED", true⟩ →
      falPoll fresp = .ready 3)
    ∧ ((bresp 0).2 = "Failed" → bflPoll bresp = .backendFailed false 1)
    ∧ ((fresp 0).ok = true → (fresp 0).status = "FAILED" →
        falPoll fresp = .backendFailed true 1)
    ∧ ((∀ j, j < 30 → ¬((bresp j).1 = 200 ∧ (bresp j).2 = "Ready")
          ∧ (bresp j).2 ≠ "Failed") →
        bflPoll bresp = .timedOut true)
    ∧ ((∀ j, j < 30 → (fresp j).ok = true
          ∧ ¬((fresp j).status = "COMPLETED" ∧ (fresp j).hasImages)
          ∧ (fresp j).status ≠ "FAILED") →
        falPoll fresp = .timedOut true) := by
  refine ⟨?_, ?_, ?_, ?_, ?_, ?_⟩
  · intro h0 h1 h2
    show bflPollAux bresp 0 30 = .ready 3
    rw [show (30 : ℕ) = 29 + 1 from rfl, bflPollAux,
      if_neg (by simp [h0]), if_neg (by simp [h0])]
    rw [show (29 : ℕ) = 28 + 1 from rfl, bflPollAux,
      if_neg (by simp [h1]), if_neg (by simp [h1])]
    rw [show (28 : ℕ) = 27 + 1 from rfl, bflPollAux, if_pos (by simp [h2])]
  · intro h0 h1 h2
    show falPollAux fresp 0 30 = .ready 3
    rw [show (30 : ℕ) = 29 + 1 from rfl, falPollAux,
      if_neg (by simp [h0]), if_neg (by simp [h0]), if_neg (by simp [h0])]
    rw [show (29 : ℕ) = 28 + 1 from rfl, falPollAux,
      if_neg (by simp [h1]), if_neg (by simp [h1]), if_neg (by simp [h1])]
    rw [show (28 : ℕ) = 27 + 1 from rfl, falPollAux,
      if_neg (by simp [h2]), if_pos (by simp [h2])]
  · intro h0
    show bflPollAux bresp 0 30 = .backendFailed false 1
    rw [show (30 : ℕ) = 29 + 1 from rfl, bflPollAux,
      if_neg (by simp [h0]), if_pos h0]
  · intro h0 h1
    show falPollAux fresp 0 30 = .backendFailed true 1
    rw [show (30 : ℕ) = 29 + 1 from rfl, falPollAux,
      if_neg (by simp [h0]), if_neg (by simp [h1]), if_pos h1]
  · intro h
    exact bflPollAux_timeout bresp 30 0 (fun j hj1 hj2 => h j (by omega))
  · intro h
    exact falPollAux_timeout fresp 30 0 (fun j hj1 hj2 => h j (by omega))

/-- Witness for C4's amended theorem on concrete status sequences. -/
theorem C4_polling_terminal_states_witness :
    (bflPoll (fun i => if i < 2 then (200, "Pending") else (200, "Ready")) = .ready 3)
    ∧ (falPoll (fun i => if i < 2 then ⟨true, "IN_PROGRESS", false⟩
          else ⟨true, "COMPLETED", true⟩) = .ready 3)
    ∧ (bflPoll (fun _ => (200, "Failed")) = .backendFailed false 1)
    ∧ (falPoll (fun _ => ⟨true, "FAILED", false⟩) = .backendFailed true 1)
    ∧ (bflPoll (fun _ => (200, "Pending")) = .timedOut true)
    ∧ (falPoll (fun _ => ⟨true, "IN_QUEUE", false⟩) = .timedOut true) :=
  ⟨(C4_polling_terminal_states (fun i => if i < 2 then (200, "Pending") else (200, "Ready"))
      (fun _ => ⟨true, "FAILED", false⟩)).1 rfl rfl rfl,
    (C4_polling_terminal_states (fun _ => (200, "Pending"))
      (fun i => if i < 2 then ⟨true, "IN_PROGRESS", false⟩
        else ⟨true, "COMPLETED", true⟩)).2.1 rfl rfl rfl,
    (C4_polling_terminal_states (fun _ => (200, "Failed"))
      (fun _ => ⟨true, "FAILED", false⟩)).2.2.1 rfl,
    (C4_polling_terminal_states (fun _ => (200, "Pending"))
      (fun _ => ⟨true, "FAILED", false⟩)).2.2.2.1 rfl rfl,
    (C4_polling_terminal_states (fun _ => (200, "Pending"))
      (fun _ => ⟨true, "FAILED", false⟩)).2.2.2.2.1 (by decide),
    (C4_polling_terminal_states (fun _ => (200, "Pending"))
      (fun _ => ⟨true, "IN_QUEUE", false⟩)).2.2.2.2.2 (by decide)⟩

/-! ## Retry executor

The provider base class implementing `executeWithRetry` is not part of src
(only its tests in the vitest suite and its call sites in the providers are),
so the executor is modelled from the spec. -/

/-- Modelled from the spec: the Retry Executor (`executeWithRetry` of the
provider base class, absent from src). Per spec section 4.4 and the base-class
tests: run the unit of work; a failure whose `retryable` flag is false aborts
immediately; a retryable failure consumes an attempt and the work is retried
while budget remains, the last error surfacing when the budget is spent. The
second component counts invocations of the work. -/
def executeWithRetryAux {α : Type} (work : ℕ → Except PError α) :
    ℕ → ℕ → Except PError α × ℕ
  | i, 0 => (.error ⟨"retry budget exhausted", "RETRY", false⟩, i)
  | i, r + 1 =>
      match work i with
      | .ok a => (.ok a, i + 1)
      | .error e =>
          if e.retryable && r != 0 then executeWithRetryAux work (i + 1) r
          else (.error e, i + 1)

/-- Models `executeWithRetry fn maxAttempts` as exercised by the base-class tests. -/
def executeWithRetry {α : Type} (work : ℕ → Except PError α) (maxAttempts : ℕ) :
    Except PError α × ℕ :=
  executeWithRetryAux work 0 maxAttempts

/-- C5: a unit of work failing with a permanent error is invoked exactly once
and the error surfaces immediately; one failing twice with retryable errors
and succeeding on the third attempt is invoked exactly three times and the
success value is returned. -/
theorem C5_retry_classification {α : Type} (work : ℕ → Except PError α)
    (e e₀ e₁ : PError) (a : α) :
    (work 0 = .error e → e.retryable = false →
      executeWithRetry work 3 = (.error e, 1))
    ∧ (work 0 = .error e₀ → e₀.retryable = true →
        work 1 = .error e₁ → e₁.retryable = true →
        work 2 = .ok a →
        executeWithRetry work 3 = (.ok a, 3)) := by
  constructor
  · intro h0 hr
    show executeWithRetryAux work 0 3 = (.error e, 1)
    rw [show (3 : ℕ) = 2 + 1 from rfl, executeWithRetryAux, h0]
    simp [hr]
  · intro h0 hr0 h1 hr1 h2
    have s1 : executeWithRetryAux work 0 3 = executeWithRetryAux work 1 2 := by
      rw [show (3 : ℕ) = 2 + 1 from rfl, executeWithRetryAux, h0]
      simp [hr0]
    have s2 : executeWithRetryAux work 1 2 = executeWithRetryAux work 2 1 := by
      rw [show (2 : ℕ) = 1 + 1 from rfl, executeWithRetryAux, h1]
      simp [hr1]
    have s3 : executeWithRetryAux work 2 1 = (.ok a, 3) := by
      rw [show (1 : ℕ) = 0 + 1 from rfl, executeWithRetryAux, h2]
    show executeWithRetryAux work 0 3 = (.ok a, 3)
    rw [s1, s2, s3]

/-- Witness for C5 on concrete units of work. -/
theorem C5_retry_classification_witness :
    executeWithRetry (fun _ => (.error ⟨"permanent", "TEST", false⟩ : Except PError Unit)) 3
      = (.error ⟨"permanent", "TEST", false⟩, 1)
    ∧ executeWithRetry
        (fun i => if i < 2 then (.error ⟨"temporary", "TEST", true⟩ : Except PError Unit)
          else .ok ()) 3
      = (.ok (), 3) :=
  ⟨(C5_retry_classification (fun _ => (.error ⟨"permanent", "TEST", false⟩ : Except PError Unit))
      ⟨"permanent", "TEST", false⟩ ⟨"permanent", "TEST", false⟩
      ⟨"permanent", "TEST", false⟩ ()).1 rfl rfl,
    (C5_retry_classification
      (fun i => if i < 2 then (.error ⟨"temporary", "TEST", true⟩ : Except PError Unit)
        else .ok ())
      ⟨"temporary", "TEST", true⟩ ⟨"temporary", "TEST", true⟩
      ⟨"temporary", "TEST", true⟩ ()).2 rfl rfl rfl rfl rfl⟩

/-! ## Rate limiter

The provider base class implementing `checkRateLimit` is likewise absent from
src; the sliding-window limiter is modelled from the spec (fixed 60s window,
capacity 10, lazy pruning of expired timestamps). -/

/-- Window capacity (10 requests). -/
def rateLimitCapacity : ℕ := 10

/-- Window duration in milliseconds (60s). -/
def rateLimitWindowMs : ℕ := 60000

/-- Modelled from the spec: `checkRateLimit` (absent from src; spec section
4.2 and the base-class tests): prune expired timestamps lazily, then record
the current timestamp and accept when the window count is below capacity,
else reject. -/
def checkRateLimit (now : ℕ) (stamps : List ℕ) : Bool × List ℕ :=
  let valid := stamps.filter (fun t => now < t + rateLimitWindowMs)
  if valid.length < rateLimitCapacity then (true, now :: valid) else (false, valid)

/-- Run a sequence of admission checks, threading the window state. -/
def runAdmits : List ℕ → List ℕ → List Bool × List ℕ
  | [], st => ([], st)
  | t :: ts, st =>
      let r := checkRateLimit t st
      let rest := runAdmits ts r.2
      (r.1 :: rest.1, rest.2)

lemma checkRateLimit_replicate (t k : ℕ) :
    checkRateLimit t (List.replicate k t) =
      (decide (k < rateLimitCapacity),
        if k < rateLimitCapacity then List.replicate (k + 1) t
        else List.replicate k t) := by
  unfold checkRateLimit
  have hf : (List.replicate k t).filter (fun s => decide (t < s + rateLimitWindowMs))
      = List.replicate k t := by
    apply List.filter_eq_self.mpr
    intro a ha
    have := List.eq_of_mem_replicate ha
    subst this
    simp [rateLimitWindowMs]
  simp only [hf, List.length_replicate]
  by_cases hk : k < rateLimitCapacity
  · simp [hk, List.replicate_succ]
  · simp [hk]

lemma runAdmits_append (xs ys : List ℕ) (st : List ℕ) :
    runAdmits (xs ++ ys) st
      = ((runAdmits xs st).1 ++ (runAdmits ys (runAdmits xs st).2).1,
          (runAdmits ys (runAdmits xs st).2).2) := by
  induction xs generalizing st with
  | nil => simp [runAdmits]
  | cons x xs ih => simp [runAdmits, ih]

lemma runAdmits_replicate_under_cap (t : ℕ) :
    ∀ (n k : ℕ), k + n ≤ rateLimitCapacity →
      runAdmits (List.replicate n t) (List.replicate k t)
        = (List.replicate n true, List.replicate (k + n) t) := by
  intro n
  induction n with
  | zero => intro k _; simp [runAdmits]
  | succ n ih =>
      intro k h
      rw [List.replicate_succ, runAdmits, checkRateLimit_replicate]
      have hk : k < rateLimitCapacity := by omega
      simp only [hk, if_pos, decide_eq_true_eq]
      rw [ih (k + 1) (by omega)]
      simp only [List.replicate_succ]
      refine Prod.ext rfl ?_
      have : k + 1 + n = k + (n + 1) := by omega
      simp [this]

/-- C6: from an empty window, the first 10 admissions at time `t` succeed,
the 11th fails with the backpressure rejection, and once the window has fully
elapsed (at `t + window`) a subsequent admission succeeds again. -/
theorem C6_rate_limiter_boundary (t : ℕ) :
    (runAdmits (List.replicate 11 t) []).1 = List.replicate 10 true ++ [false]
    ∧ (checkRateLimit (t + rateLimitWindowMs) (runAdmits (List.replicate 11 t) []).2).1
        = true := by
  have h10 : runAdmits (List.replicate 10 t) ([] : List ℕ)
      = (List.replicate 10 true, List.replicate 10 t) := by
    have := runAdmits_replicate_under_cap t 10 0 (by norm_num [rateLimitCapacity])
    simpa using this
  have h11th : checkRateLimit t (List.replicate 10 t) = (false, List.replicate 10 t) := by
    rw [checkRateLimit_replicate]
    norm_num [rateLimitCapacity]
  have hrun : runAdmits (List.replicate 11 t) []
      = (List.replicate 10 true ++ [false], List.replicate 10 t) := by
    rw [show List.replicate 11 t = List.replicate 10 t ++ [t] from rfl,
      runAdmits_append, h10]
    simp only [runAdmits, h11th]
  refine ⟨by rw [hrun], ?_⟩
  rw [hrun]
  unfold checkRateLimit
  have hf : (List.replicate 10 t).filter
      (fun s => decide (t + rateLimitWindowMs < s + rateLimitWindowMs)) = [] := by
    apply List.filter_eq_nil_iff.mpr
    intro a ha
    have := List.eq_of_mem_replicate ha
    subst this
    simp
  simp [hf, rateLimitCapacity]

/-! ## Result cache

`generateCacheKey`, `getCachedResult` and `cacheResult` belong to the
provider base class, which is absent from src (only their tests and call
sites such as `FalProvider.generate` are), so the cache primitives are
modelled from the spec; the check/store flow around them is taken from
`FalProvider.generate` in src/providers/base.ts. -/

/-- A generation request (src/types.ts, `GenerateInput`): prompt plus the
optional width/height/model/seed/guidance/steps fields. -/
structure GenRequest where
  prompt : String
  width : Option ℕ
  height : Option ℕ
  model : Option String
  seed : Option ℤ
  guidance : Option ℚ
  steps : Option ℕ
  deriving Repr, DecidableEq

/-- A cache key: exactly the semantically relevant request fields. -/
structure CacheKey where
  prompt : String
  backend : String
  width : Option ℕ
  height : Option ℕ
  model : Option String
  seed : Option ℤ
  deriving Repr, DecidableEq

/-- Modelled from the spec: `generateCacheKey` (absent from src) derives a
deterministic key from prompt, backend, width, height, model and seed,
excluding the volatile fields (guidance, steps) that the spec calls out. -/
def generateCacheKey (backend : String) (r : GenRequest) : CacheKey :=
  ⟨r.prompt, backend, r.width, r.height, r.model, r.seed⟩

/-- Cache TTL: 5 minutes, per the spec and README. -/
def cacheTTLms : ℕ := 5 * 60 * 1000

/-- Modelled from the spec: `getCachedResult` (absent from src) returns the
stored value when present and not older than the TTL (lazy expiry). -/
def getCachedResult {α : Type} (cache : List (CacheKey × α × ℕ)) (key : CacheKey)
    (now : ℕ) : Option α :=
  match cache.find? (fun e => e.1 = key) with
  | some e => if now < e.2.2 + cacheTTLms then some e.2.1 else none
  | none => none

/-- Modelled from the spec: `cacheResult` (absent from src) stores the value
under the key with its creation time. -/
def cacheResult {α : Type} (cache : List (CacheKey × α × ℕ)) (key : CacheKey)
    (v : α) (now : ℕ) : List (CacheKey × α × ℕ) :=
  (key, v, now) :: cache

/-- The cache check/store skeleton of `FalProvider.generate`
(src/providers/base.ts): return the cached result on a hit, otherwise invoke
the backend once and store the result. The third component counts backend
invocations. -/
def generateWithCache {α : Type} (cache : List (CacheKey × α × ℕ)) (key : CacheKey)
    (now : ℕ) (backendCall : Unit → α) : α × List (CacheKey × α × ℕ) × ℕ :=
  match getCachedResult cache key now with
  | some v => (v, cache, 0)
  | none =>
      let v := backendCall ()
      (v, cacheResult cache key v now, 1)

/-- C7: issuing the same normalized request twice within the TTL invokes the
backend exactly once in total (hence at most once), both calls return the
identical result, and the cache key is a deterministic function of exactly
the prompt/backend/width/height/model/seed fields (volatile fields do not
affect it). -/
theorem C7_cache_idempotence {α : Type} (backend : String) (r r' : GenRequest)
    (call₁ call₂ : Unit → α) (t₁ t₂ : ℕ)
    (hle : t₁ ≤ t₂) (httl : t₂ < t₁ + cacheTTLms) :
    ((generateWithCache ([] : List (CacheKey × α × ℕ)) (generateCacheKey backend r) t₁
        call₁).2.2
      + (generateWithCache
          (generateWithCache ([] : List (CacheKey × α × ℕ)) (generateCacheKey backend r) t₁
            call₁).2.1
          (generateCacheKey backend r) t₂ call₂).2.2 = 1)
    ∧ ((generateWithCache
          (generateWithCache ([] : List (CacheKey × α × ℕ)) (generateCacheKey backend r) t₁
            call₁).2.1
          (generateCacheKey backend r) t₂ call₂).1
        = (generateWithCache ([] : List (CacheKey × α × ℕ)) (generateCacheKey backend r) t₁
            call₁).1)
    ∧ (r.prompt = r'.prompt → r.width = r'.width → r.height = r'.height →
        r.model = r'.model → r.seed = r'.seed →
        generateCacheKey backend r = generateCacheKey backend r') := by
  have hfirst : generateWithCache ([] : List (CacheKey × α × ℕ))
      (generateCacheKey backend r) t₁ call₁
      = (call₁ (), [(generateCacheKey backend r, call₁ (), t₁)], 1) := by
    simp [generateWithCache, getCachedResult, cacheResult, List.find?]
  have hsecond : generateWithCache [(generateCacheKey backend r, call₁ (), t₁)]
      (generateCacheKey backend r) t₂ call₂
      = (call₁ (), [(generateCacheKey backend r, call₁ (), t₁)], 0) := by
    simp [generateWithCache, getCachedResult, List.find?, httl]
  refine ⟨?_, ?_, ?_⟩
  · rw [hfirst]
    simp only []
    rw [hsecond]
    rfl
  · rw [hfirst]
    simp only []
    rw [hsecond]
  · intro h1 h2 h3 h4 h5
    simp [generateCacheKey, h1, h2, h3, h4, h5]

/-- Witness for C7 at a concrete request issued at `t = 0` and `t = 1000`. -/
theorem C7_cache_idempotence_witness :
    ((generateWithCache ([] : List (CacheKey × ℕ × ℕ))
        (generateCacheKey "FAL" ⟨"a cat", some 512, some 512, none, some 7, none, none⟩) 0
        (fun _ => 42)).2.2
      + (generateWithCache
          (generateWithCache ([] : List (CacheKey × ℕ × ℕ))
            (generateCacheKey "FAL" ⟨"a cat", some 512, some 512, none, some 7, none, none⟩) 0
            (fun _ => 42)).2.1
          (generateCacheKey "FAL" ⟨"a cat", some 512, some 512, none, some 7, none, none⟩) 1000
          (fun _ => 42)).2.2 = 1)
    ∧ ((generateWithCache
          (generateWithCache ([] : List (CacheKey × ℕ × ℕ))
            (generateCacheKey "FAL" ⟨"a cat", some 512, some 512, none, some 7, none, none⟩) 0
            (fun _ => 42)).2.1
          (generateCacheKey "FAL" ⟨"a cat", some 512, some 512, none, some 7, none, none⟩) 1000
          (fun _ => 42)).1
        = (generateWithCache ([] : List (CacheKey × ℕ × ℕ))
            (generateCacheKey "FAL" ⟨"a cat", some 512, some 512, none, some 7, none, none⟩) 0
            (fun _ => 42)).1)
    ∧ ((⟨"a cat", some 512, some 512, none, some 7, none, none⟩ : GenRequest).prompt
          = (⟨"a cat", some 512, some 512, none, some 7, some 8, some 20⟩ : GenRequest).prompt →
        (⟨"a cat", some 512, some 512, none, some 7, none, none⟩ : GenRequest).width
          = (⟨"a cat", some 512, some 512, none, some 7, some 8, some 20⟩ : GenRequest).width →
        (⟨"a cat", some 512, some 512, none, some 7, none, none⟩ : GenRequest).height
          = (⟨"a cat", some 512, some 512, none, some 7, some 8, some 20⟩ : GenRequest).height →
        (⟨"a cat", some 512, some 512, none, some 7, none, none⟩ : GenRequest).model
          = (⟨"a cat", some 512, some 512, none, some 7, some 8, some 20⟩ : GenRequest).model →
        (⟨"a cat", some 512, some 512, none, some 7, none, none⟩ : GenRequest).seed
          = (⟨"a cat", some 512, some 512, none, some 7, some 8, some 20⟩ : GenRequest).seed →
        generateCacheKey "FAL" ⟨"a cat", some 512, some 512, none, some 7, none, none⟩
          = generateCacheKey "FAL" ⟨"a cat", some 512, some 512, none, some 7, some 8, some 20⟩) :=
  C7_cache_idempotence "FAL" ⟨"a cat", some 512, some 512, none, some 7, none, none⟩
    ⟨"a cat", some 512, some 512, none, some 7, some 8, some 20⟩
    (fun _ => 42) (fun _ => 42) 0 1000 (by decide) (by decide)

/-! ## Dimension filtering (src/index.ts, `image.generate` handler) -/

/-- A provider's capability descriptor (`getCapabilities()`). -/
structure Capabilities where
  supportsGenerate : Bool
  supportsEdit : Bool
  maxWidth : Option ℕ
  maxHeight : Option ℕ
  deriving Repr, DecidableEq

/-- Each provider's `getCapabilities()` as declared in its source file.
Modelled from the spec: the LEONARDO provider file is absent from src; its
descriptor follows the README capability table (generate only, 1536 max). -/
def getCapabilities : ProviderName → Capabilities
  | .MOCK => ⟨true, true, some 256, some 256⟩
  | .OPENAI => ⟨true, true, some 1792, some 1792⟩
  | .STABILITY => ⟨true, true, some 1536, some 1536⟩
  | .REPLICATE => ⟨true, false, some 2048, some 2048⟩
  | .GEMINI => ⟨true, true, some 3072, some 3072⟩
  | .IDEOGRAM => ⟨true, true, some 2048, some 2048⟩
  | .BFL => ⟨true, true, some 2048, some 2048⟩
  | .LEONARDO => ⟨true, false, some 1536, some 1536⟩
  | .FAL => ⟨true, false, some 1536, some 1536⟩
  | .CLIPDROP => ⟨true, true, some 2048, some 2048⟩

/-- The per-dimension check `input.width && caps.maxWidth && input.width >
caps.maxWidth` of the handler, including JavaScript zero-falsiness. -/
def exceedsMax (dim mx : Option ℕ) : Bool :=
  match dim, mx with
  | some d, some m => d != 0 && m != 0 && decide (m < d)
  | _, _ => false

/-- Whether a capability descriptor accepts the requested dimensions. -/
def dimsAccepted (c : Capabilities) (w h : Option ℕ) : Bool :=
  !(exceedsMax w c.maxWidth) && !(exceedsMax h c.maxHeight)

/-- The `compatibleProviders` filter of the auto branch. -/
def compatibleProviders (env : Env) (w h : Option ℕ) : List ProviderName :=
  (getConfiguredProviders env).filter (fun n => dimsAccepted (getCapabilities n) w h)

/-- Models `Config.getProviderWithFallback` from src/config.ts: the `'auto'` request
runs the selector over the configured providers, an explicit non-empty name is
used when configured (erroring only when fallback is disabled), and everything
else resolves through `getDefaultProvider`. -/
def getProviderWithFallback (env : Env) (requestedName : Option String)
    (prompt : Option String) : Except PError ProviderName :=
  let autoHit : Option ProviderName :=
    match requestedName, prompt with
    | some r, some pr =>
        if r == "auto" && pr != "" then
          match (selectProvider pr ((getConfiguredProviders env).map nameStr) none).bind
              parseProviderName with
          | some n => if isConfigured env n then some n else none
          | none => none
        else none
    | _, _ => none
  match autoHit with
  | some n => .ok n
  | none =>
      match requestedName with
      | some r =>
          if r != "" && r != "auto" then
            match parseProviderName r with
            | some n =>
                if isConfigured env n then .ok n
                else if fallbackDisabled env then
                  .error ⟨s!"Provider {r} not configured and fallback is disabled", r, false⟩
                else getDefaultProvider env
            | none =>
                if fallbackDisabled env then
                  .error ⟨s!"Unknown provider {r} and fallback is disabled", r, false⟩
                else getDefaultProvider env
          else getDefaultProvider env
      | none => getDefaultProvider env

/-- The auto branch of the `image.generate` handler: filter configured
providers by the requested dimensions, fail with the permanent
no-compatible-backend error when none remain (before any backend call), and
otherwise dispatch to the selected provider. The second component counts
backend `generate` calls. -/
def imageGenerateAuto {α : Type} (env : Env) (prompt : String) (w h : Option ℕ)
    (gen : ProviderName → α) : Except String (ProviderName × α) × ℕ :=
  let compat := compatibleProviders env w h
  if compat.isEmpty then
    (.error "No providers support the requested dimensions", 0)
  else
    match (selectProvider prompt (compat.map nameStr) none).bind parseProviderName with
    | some p => (.ok (p, gen p), 1)
    | none =>
        match getDefaultProvider env with
        | .ok p => (.ok (p, gen p), 1)
        | .error e => (.error e.message, 0)

/-- The explicit branch of the `image.generate` handler: resolve the provider,
then reject a width or height beyond the provider's maximum before any
backend call. -/
def imageGenerateExplicit {α : Type} (env : Env) (reqName : String) (prompt : String)
    (w h : Option ℕ) (gen : ProviderName → α) : Except String (ProviderName × α) × ℕ :=
  match getProviderWithFallback env (some reqName) (some prompt) with
  | .error e => (.error e.message, 0)
  | .ok p =>
      if exceedsMax w (getCapabilities p).maxWidth then
        (.error s!"Width exceeds provider {nameStr p} maximum", 0)
      else if exceedsMax h (getCapabilities p).maxHeight then
        (.error s!"Height exceeds provider {nameStr p} maximum", 0)
      else (.ok (p, gen p), 1)

/-- C8: the auto-selection candidate list is exactly the configured providers
whose capability descriptor accepts the requested dimensions; when it is
empty the request fails with the permanent no-compatible-backend error and
zero backend calls; and an explicitly named backend is rejected before any
backend call when the requested width or height exceeds its maximum. -/
theorem C8_dimension_filtering {α : Type} (env : Env) (prompt : String)
    (w h : Option ℕ) (gen : ProviderName → α) :
    (∀ p, p ∈ compatibleProviders env w h ↔
        (p ∈ getConfiguredProviders env ∧ dimsAccepted (getCapabilities p) w h = true))
    ∧ (compatibleProviders env w h = [] →
        imageGenerateAuto env prompt w h gen
          = (.error "No providers support the requested dimensions", 0))
    ∧ (∀ (reqName : String) (p : ProviderName),
        getProviderWithFallback env (some reqName) (some prompt) = .ok p →
        exceedsMax w (getCapabilities p).maxWidth = true →
        imageGenerateExplicit env reqName prompt w h gen
          = (.error s!"Width exceeds provider {nameStr p} maximum", 0))
    ∧ (∀ (reqName : String) (p : ProviderName),
        getProviderWithFallback env (some reqName) (some prompt) = .ok p →
        exceedsMax w (getCapabilities p).maxWidth = false →
        exceedsMax h (getCapabilities p).maxHeight = true →
        imageGenerateExplicit env reqName prompt w h gen
          = (.error s!"Height exceeds provider {nameStr p} maximum", 0)) := by
  refine ⟨?_, ?_, ?_, ?_⟩
  · intro p
    simp [compatibleProviders, List.mem_filter]
  · intro hempty
    simp [imageGenerateAuto, hempty]
  · intro reqName p hres hw
    simp [imageGenerateExplicit, hres, hw]
  · intro reqName p hres hw hh
    simp [imageGenerateExplicit, hres, hw, hh]

/-- Witness for C8: with only `MOCK` configured (max 256×256), a 512×512
request has no compatible provider and the auto branch fails without calling
any backend; explicitly requesting `MOCK` at width 512 is rejected before any
backend call. -/
theorem C8_dimension_filtering_witness :
    (ProviderName.MOCK ∈ compatibleProviders ⟨none, none, fun _ => false⟩ none none
      ↔ (ProviderName.MOCK ∈ getConfiguredProviders ⟨none, none, fun _ => false⟩
          ∧ dimsAccepted (getCapabilities ProviderName.MOCK) none none = true))
    ∧ (imageGenerateAuto ⟨none, none, fun _ => false⟩ "a cat" (some 512) (some 512)
          (fun p => nameStr p)
        = (.error "No providers support the requested dimensions", 0))
    ∧ (imageGenerateExplicit ⟨none, none, fun _ => false⟩ "MOCK" "a cat"
          (some 512) (some 512) (fun p => nameStr p)
        = (.error "Width exceeds provider MOCK maximum", 0)) :=
  ⟨(C8_dimension_filtering ⟨none, none, fun _ => false⟩ "a cat" none none
      (fun p => nameStr p)).1 ProviderName.MOCK,
    (C8_dimension_filtering ⟨none, none, fun _ => false⟩ "a cat" (some 512) (some 512)
      (fun p => nameStr p)).2.1 (by decide),
    (C8_dimension_filtering ⟨none, none, fun _ => false⟩ "a cat" (some 512) (some 512)
      (fun p => nameStr p)).2.2.1 "MOCK" ProviderName.MOCK rfl (by decide)⟩

end ImageGenMCP
